import Mathlib

/-!
Shallow embedding of `collector/cluster_health.go` from the pixiu
repository: a Prometheus-style collector that fetches a cluster-health
JSON document, decodes it into a snapshot, and republishes selected
fields as metric samples.

Metric channels (`chan<- prometheus.Metric` / `chan<- *prometheus.Desc`)
are modelled as the list of items sent, in order.  The network is
modelled as an explicit `FetchOutcome` argument describing what the
single HTTP GET of one fetch produced.  Counters and the gauge are
plain numbers in the collector state; `float64` values that the code
only ever obtains by converting `int` fields are modelled as `Int`,
and the one genuinely fractional field (`active_shards_percent_as_number`,
which no metric reads) as `Rat`.
-/

namespace Pixiu

/-- Modelled from the spec: the process-wide metric namespace
(`global.Namespace`, defined in a package that is not under `src/`;
the spec only says it is process-wide configuration).  No claim
depends on its concrete value. -/
def globalNamespace : String := "pixiu"

/-- Subsystem constant, `clusterHealthSubsystem` in the source. -/
def clusterHealthSubsystem : String := "cluster_health_subsystem"

/-- Embedding of `prometheus.BuildFQName`: joins the non-empty parts
with underscores; an empty metric name yields the empty string. -/
def buildFQName (ns sub name : String) : String :=
  if name = "" then ""
  else if ns ≠ "" ∧ sub ≠ "" then ns ++ "_" ++ sub ++ "_" ++ name
  else if ns ≠ "" then ns ++ "_" ++ name
  else if sub ≠ "" then sub ++ "_" ++ name
  else name

/-- Enumerated status domain, the `colors` variable in the source. -/
def colors : List String := ["green", "yellow", "red"]

/-- Label schema of the field metrics, `defaultClusterHealthLabels`. -/
def defaultClusterHealthLabels : List String := ["cluster"]

/-- Embedding of the decoded JSON document `clusterHealthResponse`. -/
structure clusterHealthResponse where
  ClusterName : String
  Status : String
  TimedOut : Bool
  NumberOfNodes : Int
  NumberOfDataNodes : Int
  ActivePrimaryShards : Int
  ActiveShards : Int
  RelocatingShards : Int
  InitializingShards : Int
  UnassignedShards : Int
  DelayedUnassignedShards : Int
  NumberOfPendingTasks : Int
  NumberOfInFlightFetch : Int
  TaskMaxWaitingInQueueMillis : Int
  ActiveShardsPercentAsNumber : Rat
  deriving Repr, DecidableEq

/-- Metric value types of the prometheus client library; every metric
of this collector is a gauge. -/
inductive ValueType where
  | gaugeValue
  | counterValue
  deriving Repr, DecidableEq

/-- Embedding of `clusterHealthMetric`: one entry of the static
field-mapping table.  The `*prometheus.Desc` is represented by its
fully-qualified name together with its help string and label schema. -/
structure clusterHealthMetric where
  valueType : ValueType
  descName : String
  descHelp : String
  descLabels : List String
  Value : clusterHealthResponse → Int

/-- Embedding of `clusterHealthStatusMetric` (the `Labels` function
field is never assigned in `NewClusterHealth`, so it is omitted). -/
structure clusterHealthStatusMetric where
  valueType : ValueType
  descName : String
  descHelp : String
  descLabels : List String
  Value : clusterHealthResponse → String → Int

/-- Go `*url.URL` restricted to the fields this file touches. -/
structure GoURL where
  Scheme : String
  Hostname : String
  Port : String
  Path : String
  deriving Repr, DecidableEq

/-- Rendering of a `GoURL`, standing in for Go `url.URL.String()`. -/
def GoURL.render (u : GoURL) : String :=
  u.Scheme ++ "://" ++ u.Hostname ++
    (if u.Port = "" then "" else ":" ++ u.Port) ++ u.Path

/-- Segment-processing core of Go `path.Clean`: drops empty and `.`
segments, lets `..` pop the previous segment, and discards `..` at the
root of a rooted path.  `acc` holds the output segments in reverse. -/
def cleanSegments (rooted : Bool) (acc : List String) :
    List String → List String
  | [] => acc.reverse
  | s :: rest =>
    if s = "" ∨ s = "." then cleanSegments rooted acc rest
    else if s = ".." then
      match acc with
      | t :: acc' =>
        if t = ".." then cleanSegments rooted (s :: acc) rest
        else cleanSegments rooted acc' rest
      | [] =>
        if rooted then cleanSegments rooted [] rest
        else cleanSegments rooted [s] rest
    else cleanSegments rooted (s :: acc) rest

/-- Embedding of Go `path.Clean`. -/
def goPathClean (p : String) : String :=
  if p = "" then "."
  else
    let rooted := p.startsWith "/"
    let segs := cleanSegments rooted [] (p.splitOn "/")
    let out := String.intercalate "/" segs
    if rooted then (if out = "" then "/" else "/" ++ out)
    else (if out = "" then "." else out)

/-- Embedding of Go `path.Join` for the two-argument form used by the
source (`path.Join(u.Path, "/_cluster/health")`). -/
def goPathJoin (a b : String) : String :=
  if a = "" ∧ b = "" then ""
  else if a = "" then goPathClean b
  else goPathClean (a ++ "/" ++ b)

/-- Collector state, embedding the mutable part of `ClusterHealth`:
the stored base URL, the `up` gauge and the two counters, plus the
metric table and status metric built by `NewClusterHealth`.  The
logger and HTTP client are not modelled (logging is a pure side
channel; the network is the explicit `FetchOutcome` argument). -/
structure ClusterHealth where
  url : GoURL
  up : Int
  totalScrapes : Nat
  jsonParseFailures : Nat
  metrics : List clusterHealthMetric
  statusMetric : clusterHealthStatusMetric

/-- Static field-mapping table built inside `NewClusterHealth`,
entry for entry in source order. -/
def clusterHealthMetricsTable : List clusterHealthMetric :=
  [ { valueType := .gaugeValue
      descName := buildFQName globalNamespace clusterHealthSubsystem "active_primary_shards"
      descHelp := "The number of primary shards in your cluster. This is an aggregate total across all indices."
      descLabels := defaultClusterHealthLabels
      Value := fun clusterHealth => clusterHealth.ActivePrimaryShards },
    { valueType := .gaugeValue
      descName := buildFQName globalNamespace clusterHealthSubsystem "active_shards"
      descHelp := "Aggregate total of all shards across all indices, which includes replica shards."
      descLabels := defaultClusterHealthLabels
      Value := fun clusterHealth => clusterHealth.ActiveShards },
    { valueType := .gaugeValue
      descName := buildFQName globalNamespace clusterHealthSubsystem "delayed_unassigned_shards"
      descHelp := "Shards delayed to reduce reallocation overhead"
      descLabels := defaultClusterHealthLabels
      Value := fun clusterHealth => clusterHealth.DelayedUnassignedShards },
    { valueType := .gaugeValue
      descName := buildFQName globalNamespace clusterHealthSubsystem "initializing_shards"
      descHelp := "Count of shards that are being freshly created."
      descLabels := defaultClusterHealthLabels
      Value := fun clusterHealth => clusterHealth.InitializingShards },
    { valueType := .gaugeValue
      descName := buildFQName globalNamespace clusterHealthSubsystem "number_of_data_nodes"
      descHelp := "Number of data nodes in the cluster."
      descLabels := defaultClusterHealthLabels
      Value := fun clusterHealth => clusterHealth.NumberOfDataNodes },
    { valueType := .gaugeValue
      descName := buildFQName globalNamespace clusterHealthSubsystem "number_of_in_flight_fetch"
      descHelp := "The number of ongoing shard info requests."
      descLabels := defaultClusterHealthLabels
      Value := fun clusterHealth => clusterHealth.NumberOfInFlightFetch },
    { valueType := .gaugeValue
      descName := buildFQName globalNamespace clusterHealthSubsystem "task_max_waiting_in_queue_millis"
      descHelp := "Tasks max time waiting in queue."
      descLabels := defaultClusterHealthLabels
      Value := fun clusterHealth => clusterHealth.TaskMaxWaitingInQueueMillis },
    { valueType := .gaugeValue
      descName := buildFQName globalNamespace clusterHealthSubsystem "number_of_nodes"
      descHelp := "Number of nodes in the cluster."
      descLabels := defaultClusterHealthLabels
      Value := fun clusterHealth => clusterHealth.NumberOfNodes },
    { valueType := .gaugeValue
      descName := buildFQName globalNamespace clusterHealthSubsystem "number_of_pending_tasks"
      descHelp := "Cluster level changes which have not yet been executed"
      descLabels := defaultClusterHealthLabels
      Value := fun clusterHealth => clusterHealth.NumberOfPendingTasks },
    { valueType := .gaugeValue
      descName := buildFQName globalNamespace clusterHealthSubsystem "relocating_shards"
      descHelp := "The number of shards that are currently moving from one node to another node."
      descLabels := defaultClusterHealthLabels
      Value := fun clusterHealth => clusterHealth.RelocatingShards },
    { valueType := .gaugeValue
      descName := buildFQName globalNamespace clusterHealthSubsystem "unassigned_shards"
      descHelp := "The number of shards that exist in the cluster state, but cannot be found in the cluster itself."
      descLabels := defaultClusterHealthLabels
      Value := fun clusterHealth => clusterHealth.UnassignedShards } ]

/-- Status metric built inside `NewClusterHealth`: one-hot comparison
of the snapshot status against a color by Go string equality `==`. -/
def clusterHealthStatusMetricDef : clusterHealthStatusMetric :=
  { valueType := .gaugeValue
    descName := buildFQName globalNamespace clusterHealthSubsystem "status"
    descHelp := "Whether all primary and replica shards are allocated."
    descLabels := ["cluster", "color"]
    Value := fun clusterHealth color =>
      if clusterHealth.Status = color then 1 else 0 }

/-- Descriptor names of the three operational metrics, as set in
`NewClusterHealth` via `GaugeOpts`/`CounterOpts`. -/
def upDescName : String :=
  buildFQName globalNamespace clusterHealthSubsystem "up"

/-- Descriptor name of the `total_scrapes` counter. -/
def totalScrapesDescName : String :=
  buildFQName globalNamespace clusterHealthSubsystem "total_scrapes"

/-- Descriptor name of the `json_parse_failures` counter. -/
def jsonParseFailuresDescName : String :=
  buildFQName globalNamespace clusterHealthSubsystem "json_parse_failures"

/-- Embedding of `NewClusterHealth`: a fresh collector stores the URL,
starts the gauge and counters at zero, and installs the static metric
table and status metric. -/
def NewClusterHealth (url : GoURL) : ClusterHealth :=
  { url := url
    up := 0
    totalScrapes := 0
    jsonParseFailures := 0
    metrics := clusterHealthMetricsTable
    statusMetric := clusterHealthStatusMetricDef }

/-- What the body of the single HTTP response yields once the status
code was accepted: `ioutil.ReadAll` may fail, `json.Unmarshal` may
fail, or a snapshot is decoded. -/
inductive BodyOutcome where
  | readError (msg : String)
  | decodeError (msg : String)
  | ok (chr : clusterHealthResponse)

/-- Outcome of the single `client.Get` of one fetch: either the
request itself failed (transport error) or a response with a status
code and a body arrived. -/
inductive FetchOutcome where
  | transportError (msg : String)
  | response (statusCode : Nat) (body : BodyOutcome)

/-- Error values returned by `fetchAndDecodeClusterHealth`, tagged by
exit path; each carries what the corresponding Go error carries. -/
inductive FetchErr where
  | transport (msg : String)
  | unexpectedStatus (code : Nat)
  | readErr (msg : String)
  | decodeErr (msg : String)
  deriving Repr, DecidableEq

/-- Rendering of a `FetchErr` as the Go error message built at the
corresponding `return` site (`requestDesc` is the formatted request
location used by the transport-error message). -/
def FetchErr.message (requestDesc : String) : FetchErr → String
  | .transport msg =>
      "failed to get cluster health from " ++ requestDesc ++ ": " ++ msg
  | .unexpectedStatus code =>
      "HTTP Request failed with code " ++ toString code
  | .readErr msg => msg
  | .decodeErr msg => msg

/-- Request URL computed at the top of `fetchAndDecodeClusterHealth`:
a copy of the stored base URL with `/_cluster/health` joined onto its
path.  The copy is what makes the stored URL survive the fetch. -/
def requestURL (c : ClusterHealth) : GoURL :=
  { c.url with Path := goPathJoin c.url.Path "/_cluster/health" }

/-- Embedding of `fetchAndDecodeClusterHealth`.  Returns the updated
collector state together with the snapshot or the error.  Only the
two post-status body failures increment `jsonParseFailures`; the
response body is closed on every exit path after a response arrived
(resource release is a no-op in this embedding). -/
def fetchAndDecodeClusterHealth (c : ClusterHealth) (env : FetchOutcome) :
    ClusterHealth × Except FetchErr clusterHealthResponse :=
  let u := requestURL c
  match env with
  | .transportError msg =>
      (c, .error (.transport (u.Scheme ++ "://" ++ u.Hostname ++ ":" ++
        u.Port ++ u.Path ++ " " ++ msg)))
  | .response statusCode body =>
      if statusCode ≠ 200 then
        (c, .error (.unexpectedStatus statusCode))
      else
        match body with
        | .readError msg =>
            ({ c with jsonParseFailures := c.jsonParseFailures + 1 },
             .error (.readErr msg))
        | .decodeError msg =>
            ({ c with jsonParseFailures := c.jsonParseFailures + 1 },
             .error (.decodeErr msg))
        | .ok chr => (c, .ok chr)

/-- One item sent on the metric channel during `Collect`: a field
sample, a status sample, or one of the three operational metrics
(sent with the value they hold at the end of `Collect`). -/
inductive Sample where
  | field (descName : String) (value : Int) (cluster : String)
  | status (descName : String) (value : Int) (cluster : String) (color : String)
  | upGauge (value : Int)
  | scrapeCounter (value : Nat)
  | parseFailCounter (value : Nat)
  deriving Repr, DecidableEq

/-- Tests whether a sample is a field sample. -/
def Sample.isField : Sample → Bool
  | .field _ _ _ => true
  | _ => false

/-- Tests whether a sample is a status sample. -/
def Sample.isStatus : Sample → Bool
  | .status _ _ _ _ => true
  | _ => false

/-- Value carried by a sample (counters coerced to `Int`). -/
def Sample.value : Sample → Int
  | .field _ v _ => v
  | .status _ v _ _ => v
  | .upGauge v => v
  | .scrapeCounter v => (v : Int)
  | .parseFailCounter v => (v : Int)

/-- Deferred tail of `Collect`: the three operational metrics, sent in
source order with their end-of-call values. -/
def opsSamples (c : ClusterHealth) : List Sample :=
  [.upGauge c.up, .scrapeCounter c.totalScrapes,
   .parseFailCounter c.jsonParseFailures]

/-- Field samples sent by the first loop of `Collect` on success. -/
def fieldSamples (c : ClusterHealth) (chr : clusterHealthResponse) :
    List Sample :=
  c.metrics.map (fun metric =>
    .field metric.descName (metric.Value chr) chr.ClusterName)

/-- Status samples sent by the second loop of `Collect` on success:
one per color of the fixed domain. -/
def statusSamples (c : ClusterHealth) (chr : clusterHealthResponse) :
    List Sample :=
  colors.map (fun color =>
    .status c.statusMetric.descName (c.statusMetric.Value chr color)
      chr.ClusterName color)

/-- Embedding of `Collect`.  Increments `totalScrapes`, fetches, and
either records the failure (`up = 0`, operational metrics only) or
emits the field and status samples followed by the deferred
operational metrics. -/
def Collect (c : ClusterHealth) (env : FetchOutcome) :
    ClusterHealth × List Sample :=
  let c1 := { c with totalScrapes := c.totalScrapes + 1 }
  match fetchAndDecodeClusterHealth c1 env with
  | (c2, .error _) =>
      let c3 := { c2 with up := 0 }
      (c3, opsSamples c3)
  | (c2, .ok chr) =>
      let c3 := { c2 with up := 1 }
      (c3, fieldSamples c3 chr ++ statusSamples c3 chr ++ opsSamples c3)

/-- Embedding of `Describe`: the descriptor names sent, in source
order — one per field-mapping entry, then the status metric, then the
three operational metrics. -/
def Describe (c : ClusterHealth) : List String :=
  c.metrics.map (fun metric => metric.descName) ++
    [c.statusMetric.descName, upDescName, totalScrapesDescName,
     jsonParseFailuresDescName]

/-- Classifies the fetch outcomes on which `fetchAndDecodeClusterHealth`
returns an error: transport error, non-200 status, or a body that
could not be read or decoded. -/
def FetchOutcome.fails : FetchOutcome → Bool
  | .transportError _ => true
  | .response statusCode body =>
      if statusCode ≠ 200 then true
      else match body with
        | .readError _ => true
        | .decodeError _ => true
        | .ok _ => false

/-- Classifies the outcomes the source counts as JSON-parse failures:
a 200 response whose body could not be read or decoded. -/
def FetchOutcome.malformedBody : FetchOutcome → Bool
  | .transportError _ => false
  | .response statusCode body =>
      if statusCode ≠ 200 then false
      else match body with
        | .readError _ => true
        | .decodeError _ => true
        | .ok _ => false

/-! Concrete inputs used by witness theorems. -/

/-- Example base URL of an exporter target. -/
def sampleURL : GoURL :=
  { Scheme := "http", Hostname := "localhost", Port := "9114", Path := "" }

/-- Example snapshot, the one from the spec's worked example. -/
def sampleHealth : clusterHealthResponse :=
  { ClusterName := "prod", Status := "yellow", TimedOut := false,
    NumberOfNodes := 3, NumberOfDataNodes := 2, ActivePrimaryShards := 12,
    ActiveShards := 24, RelocatingShards := 0, InitializingShards := 0,
    UnassignedShards := 0, DelayedUnassignedShards := 0,
    NumberOfPendingTasks := 0, NumberOfInFlightFetch := 0,
    TaskMaxWaitingInQueueMillis := 0, ActiveShardsPercentAsNumber := 100 }

/-- Example snapshot whose status differs from `green` only in case. -/
def oddCaseHealth : clusterHealthResponse :=
  { sampleHealth with Status := "Green" }

/-! Helper lemmas shared by the claim theorems. -/

/-- State part of `fetchAndDecodeClusterHealth`: the only field it
touches is `jsonParseFailures`, incremented exactly on 200-status
read/decode failures. -/
theorem fetchAndDecode_state (c : ClusterHealth) (env : FetchOutcome) :
    (fetchAndDecodeClusterHealth c env).1
      = { c with jsonParseFailures :=
            c.jsonParseFailures + (if env.malformedBody then 1 else 0) } := by
  cases env with
  | transportError msg =>
      simp [fetchAndDecodeClusterHealth, FetchOutcome.malformedBody]
  | response code body =>
      by_cases hc : code = 200
      · subst hc
        cases body <;>
          simp [fetchAndDecodeClusterHealth, FetchOutcome.malformedBody]
      · cases body <;>
          simp [fetchAndDecodeClusterHealth, FetchOutcome.malformedBody, hc]

/-- Unfolding of `Collect` on a successful fetch. -/
theorem collect_eq_of_ok (c : ClusterHealth) (chr : clusterHealthResponse) :
    Collect c (.response 200 (.ok chr))
      = ({ c with totalScrapes := c.totalScrapes + 1, up := 1 },
         fieldSamples c chr ++ statusSamples c chr ++
           [Sample.upGauge 1, Sample.scrapeCounter (c.totalScrapes + 1),
            Sample.parseFailCounter c.jsonParseFailures]) := rfl

/-- Unfolding of `Collect` on a failed fetch. -/
theorem collect_eq_of_fails (c : ClusterHealth) (env : FetchOutcome)
    (h : env.fails = true) :
    Collect c env
      = ({ c with
             totalScrapes := c.totalScrapes + 1
             up := 0
             jsonParseFailures :=
               c.jsonParseFailures + (if env.malformedBody then 1 else 0) },
         [Sample.upGauge 0, Sample.scrapeCounter (c.totalScrapes + 1),
          Sample.parseFailCounter
            (c.jsonParseFailures + (if env.malformedBody then 1 else 0))]) := by
  cases env with
  | transportError msg =>
      simp [Collect, fetchAndDecodeClusterHealth, opsSamples,
        FetchOutcome.malformedBody]
  | response code body =>
      by_cases hc : code = 200
      · subst hc
        cases body with
        | readError msg =>
            simp [Collect, fetchAndDecodeClusterHealth, opsSamples,
              FetchOutcome.malformedBody]
        | decodeError msg =>
            simp [Collect, fetchAndDecodeClusterHealth, opsSamples,
              FetchOutcome.malformedBody]
        | ok chr => simp [FetchOutcome.fails] at h
      · cases body <;>
          simp [Collect, fetchAndDecodeClusterHealth, opsSamples,
            FetchOutcome.malformedBody, hc]

/-- Field samples are exactly what `Sample.isField` keeps. -/
theorem filter_isField_map_field (l : List clusterHealthMetric)
    (chr : clusterHealthResponse) :
    (l.map (fun metric =>
        Sample.field metric.descName (metric.Value chr) chr.ClusterName)).filter
        Sample.isField
      = l.map (fun metric =>
          Sample.field metric.descName (metric.Value chr) chr.ClusterName) := by
  induction l with
  | nil => rfl
  | cons m t ih => simp [Sample.isField, ih]

/-- Field samples contain no status sample. -/
theorem filter_isStatus_map_field (l : List clusterHealthMetric)
    (chr : clusterHealthResponse) :
    (l.map (fun metric =>
        Sample.field metric.descName (metric.Value chr) chr.ClusterName)).filter
        Sample.isStatus = [] := by
  induction l with
  | nil => rfl
  | cons m t ih => simp [Sample.isStatus, ih]

/-- Status samples are exactly what `Sample.isStatus` keeps. -/
theorem filter_isStatus_statusSamples (c : ClusterHealth)
    (chr : clusterHealthResponse) :
    (statusSamples c chr).filter Sample.isStatus = statusSamples c chr := rfl

/-- Status samples contain no field sample. -/
theorem filter_isField_statusSamples (c : ClusterHealth)
    (chr : clusterHealthResponse) :
    (statusSamples c chr).filter Sample.isField = [] := rfl

/-- State part of `Collect`: `totalScrapes` always advances by one,
`up` records the outcome, `jsonParseFailures` advances exactly on
malformed bodies, and everything else (URL, metric table, status
metric) is untouched. -/
theorem collect_state (c : ClusterHealth) (env : FetchOutcome) :
    (Collect c env).1
      = { c with
            totalScrapes := c.totalScrapes + 1
            up := if env.fails then 0 else 1
            jsonParseFailures :=
              c.jsonParseFailures + (if env.malformedBody then 1 else 0) } := by
  by_cases h : env.fails = true
  · rw [collect_eq_of_fails c env h, h]
    rfl
  · match env, h with
    | .response 200 (.ok chr), _ =>
        rw [collect_eq_of_ok c chr]
        simp [FetchOutcome.fails, FetchOutcome.malformedBody]
    | .transportError msg, h => exact absurd rfl h
    | .response code (.readError msg), h =>
        by_cases hcode : code = 200
        · subst hcode; exact absurd rfl h
        · exact absurd (by simp [FetchOutcome.fails, hcode]) h
    | .response code (.decodeError msg), h =>
        by_cases hcode : code = 200
        · subst hcode; exact absurd rfl h
        · exact absurd (by simp [FetchOutcome.fails, hcode]) h
    | .response code (.ok chr), h =>
        by_cases hcode : code = 200
        · subst hcode
          rw [collect_eq_of_ok c chr]
          simp [FetchOutcome.fails, FetchOutcome.malformedBody]
        · exact absurd (by simp [FetchOutcome.fails, hcode]) h

/-- Status samples sent by a successful `Collect` of a collector whose
status metric is the one built by `NewClusterHealth`: one sample per
color, one-hot against the snapshot status. -/
theorem collect_status_filter_eq (c : ClusterHealth)
    (chr : clusterHealthResponse)
    (hs : c.statusMetric = clusterHealthStatusMetricDef) :
    (Collect c (.response 200 (.ok chr))).2.filter Sample.isStatus
      = colors.map (fun color =>
          Sample.status clusterHealthStatusMetricDef.descName
            (if chr.Status = color then 1 else 0) chr.ClusterName color) := by
  rw [collect_eq_of_ok c chr]
  simp [List.filter_append, fieldSamples, filter_isStatus_map_field,
    statusSamples, hs, clusterHealthStatusMetricDef, Sample.isStatus]

/-! Claim theorems. -/

/-- Claim C2: on every failed fetch (transport error, non-200 status,
or undecodable body), `Collect` emits no field sample and no status
sample, sets the `up` gauge to 0, still increments `totalScrapes`, and
the emission is exactly the three operational metrics `up`,
`totalScrapes`, `jsonParseFailures`, in that order. -/
theorem collect_failure_ops_only (c : ClusterHealth) (env : FetchOutcome)
    (h : env.fails = true) :
    (Collect c env).2
      = [Sample.upGauge 0, Sample.scrapeCounter (c.totalScrapes + 1),
         Sample.parseFailCounter
           (c.jsonParseFailures + (if env.malformedBody then 1 else 0))] ∧
    (Collect c env).1.up = 0 ∧
    (Collect c env).1.totalScrapes = c.totalScrapes + 1 ∧
    (Collect c env).2.filter Sample.isField = [] ∧
    (Collect c env).2.filter Sample.isStatus = [] := by
  rw [collect_eq_of_fails c env h]
  refine ⟨rfl, rfl, rfl, rfl, rfl⟩

/-- Witness for C2 at a concrete transport failure. -/
theorem collect_failure_ops_only_witness :
    (Collect (NewClusterHealth sampleURL)
        (.transportError "connection refused")).2
      = [Sample.upGauge 0, Sample.scrapeCounter 1,
         Sample.parseFailCounter 0] := by
  have h := collect_failure_ops_only (NewClusterHealth sampleURL)
    (.transportError "connection refused") rfl
  simpa [NewClusterHealth, FetchOutcome.malformedBody] using h.1

/-- Claim C3: `fetchAndDecodeClusterHealth` increments
`jsonParseFailures` exactly once on a malformed-body outcome (a 200
response whose body fails to read or decode) and leaves it unchanged
on every other outcome, in particular on a transport error or a
non-success status code. -/
theorem fetch_jsonParseFailures_exact (c : ClusterHealth)
    (env : FetchOutcome) :
    (fetchAndDecodeClusterHealth c env).1.jsonParseFailures
      = c.jsonParseFailures + (if env.malformedBody then 1 else 0) := by
  rw [fetchAndDecode_state c env]

/-- Claim C5: every `Collect` invocation increments `totalScrapes`
exactly once, whatever the fetch outcome. -/
theorem collect_totalScrapes_increment (c : ClusterHealth)
    (env : FetchOutcome) :
    (Collect c env).1.totalScrapes = c.totalScrapes + 1 := by
  by_cases h : env.fails = true
  · rw [collect_eq_of_fails c env h]
  · match env, h with
    | .response 200 (.ok chr), _ => rw [collect_eq_of_ok c chr]
    | .transportError msg, h => exact absurd rfl h
    | .response code (.readError msg), h =>
        by_cases hc : code = 200
        · subst hc; exact absurd rfl h
        · exact absurd (by simp [FetchOutcome.fails, hc]) h
    | .response code (.decodeError msg), h =>
        by_cases hc : code = 200
        · subst hc; exact absurd rfl h
        · exact absurd (by simp [FetchOutcome.fails, hc]) h
    | .response code (.ok chr), h =>
        by_cases hc : code = 200
        · subst hc; rw [collect_eq_of_ok c chr]
        · exact absurd (by simp [FetchOutcome.fails, hc]) h

/-- Claim C7: when a response arrives with a status code other than
200, `fetchAndDecodeClusterHealth` returns the unexpected-status
error, and its rendered message carries the observed status code. -/
theorem fetch_non_success_status_error (c : ClusterHealth) (code : Nat)
    (body : BodyOutcome) (requestDesc : String) (h : code ≠ 200) :
    (fetchAndDecodeClusterHealth c (.response code body)).2
      = .error (.unexpectedStatus code) ∧
    FetchErr.message requestDesc (.unexpectedStatus code)
      = "HTTP Request failed with code " ++ toString code := by
  constructor
  · cases body <;> simp [fetchAndDecodeClusterHealth, h]
  · rfl

/-- Witness for C7 at a concrete 503 response. -/
theorem fetch_non_success_status_error_witness :
    (fetchAndDecodeClusterHealth (NewClusterHealth sampleURL)
        (.response 503 (.decodeError "html error page"))).2
      = .error (.unexpectedStatus 503) ∧
    FetchErr.message "" (.unexpectedStatus 503)
      = "HTTP Request failed with code 503" :=
  fetch_non_success_status_error (NewClusterHealth sampleURL) 503
    (.decodeError "html error page") "" (by decide)

/-- Claim C10: a fetch never mutates the collector's stored base URL —
it joins `/_cluster/health` onto a copy — so the URL survives
`fetchAndDecodeClusterHealth` and `Collect` unchanged, and the request
URL of a later `Collect` equals the request URL of the first. -/
theorem fetch_preserves_base_url (c : ClusterHealth) (env : FetchOutcome) :
    (fetchAndDecodeClusterHealth c env).1.url = c.url ∧
    (Collect c env).1.url = c.url ∧
    requestURL ((Collect c env).1) = requestURL c ∧
    (requestURL ((Collect c env).1)).render = (requestURL c).render := by
  have hf : (fetchAndDecodeClusterHealth c env).1.url = c.url := by
    rw [fetchAndDecode_state c env]
  have hc : (Collect c env).1.url = c.url := by
    by_cases h : env.fails = true
    · rw [collect_eq_of_fails c env h]
    · match env, h with
      | .response 200 (.ok chr), _ => rw [collect_eq_of_ok c chr]
      | .transportError msg, h => exact absurd rfl h
      | .response code (.readError msg), h =>
          by_cases hcode : code = 200
          · subst hcode; exact absurd rfl h
          · exact absurd (by simp [FetchOutcome.fails, hcode]) h
      | .response code (.decodeError msg), h =>
          by_cases hcode : code = 200
          · subst hcode; exact absurd rfl h
          · exact absurd (by simp [FetchOutcome.fails, hcode]) h
      | .response code (.ok chr), h =>
          by_cases hcode : code = 200
          · subst hcode; rw [collect_eq_of_ok c chr]
          · exact absurd (by simp [FetchOutcome.fails, hcode]) h
  exact ⟨hf, hc, by rw [requestURL, requestURL, hc], by rw [requestURL, requestURL, hc]⟩

/-- Claim C1: on every successful fetch, `Collect` emits exactly three
status samples, one per value of the fixed domain (green, yellow,
red); each sample is 1 exactly when the snapshot status equals its
color, so exactly one sample is 1 when the status is in the domain and
all three are 0 otherwise. -/
theorem collect_success_status_one_hot (c : ClusterHealth)
    (chr : clusterHealthResponse)
    (hs : c.statusMetric = clusterHealthStatusMetricDef) :
    (Collect c (.response 200 (.ok chr))).2.filter Sample.isStatus
      = colors.map (fun color =>
          Sample.status clusterHealthStatusMetricDef.descName
            (if chr.Status = color then 1 else 0) chr.ClusterName color) ∧
    (chr.Status ∈ colors →
      ((Collect c (.response 200 (.ok chr))).2.filter Sample.isStatus).countP
          (fun s => s.value == 1) = 1) ∧
    (chr.Status ∉ colors →
      ((Collect c (.response 200 (.ok chr))).2.filter Sample.isStatus).map
          Sample.value = [0, 0, 0]) := by
  have hfil := collect_status_filter_eq c chr hs
  refine ⟨hfil, ?_, ?_⟩
  · intro hmem
    rw [hfil]
    simp only [colors, List.mem_cons, List.not_mem_nil, or_false] at hmem
    rcases hmem with h1 | h1 | h1 <;>
      simp [colors, h1, List.countP_cons, Sample.value]
  · intro hmem
    rw [hfil]
    simp only [colors, List.mem_cons, List.not_mem_nil, or_false,
      not_or] at hmem
    obtain ⟨h1, h2, h3⟩ := hmem
    simp [colors, h1, h2, h3, Sample.value]

/-- Witness for C1 at the spec's worked example (status `yellow`). -/
theorem collect_success_status_one_hot_witness :
    ((Collect (NewClusterHealth sampleURL)
        (.response 200 (.ok sampleHealth))).2.filter Sample.isStatus).countP
        (fun s => s.value == 1) = 1 :=
  (collect_success_status_one_hot (NewClusterHealth sampleURL) sampleHealth
      rfl).2.1 (by decide)

/-- Claim C4: on every successful fetch, `Collect` sets `up` to 1 and
emits exactly one field sample per entry of the static field-mapping
table, with that entry's extraction function applied to the snapshot
and the snapshot's cluster name as label. -/
theorem collect_success_field_samples (c : ClusterHealth)
    (chr : clusterHealthResponse)
    (hm : c.metrics = clusterHealthMetricsTable) :
    (Collect c (.response 200 (.ok chr))).1.up = 1 ∧
    (Collect c (.response 200 (.ok chr))).2.filter Sample.isField
      = clusterHealthMetricsTable.map (fun metric =>
          Sample.field metric.descName (metric.Value chr) chr.ClusterName) ∧
    ((Collect c (.response 200 (.ok chr))).2.filter Sample.isField).length
      = clusterHealthMetricsTable.length := by
  have hfil : (Collect c (.response 200 (.ok chr))).2.filter Sample.isField
      = clusterHealthMetricsTable.map (fun metric =>
          Sample.field metric.descName (metric.Value chr) chr.ClusterName) := by
    rw [collect_eq_of_ok c chr]
    simp [List.filter_append, fieldSamples, hm, filter_isField_map_field,
      filter_isField_statusSamples, Sample.isField]
  exact ⟨by rw [collect_eq_of_ok c chr], hfil, by rw [hfil]; simp⟩

/-- Witness for C4 at the spec's worked example. -/
theorem collect_success_field_samples_witness :
    (Collect (NewClusterHealth sampleURL)
        (.response 200 (.ok sampleHealth))).1.up = 1 ∧
    ((Collect (NewClusterHealth sampleURL)
        (.response 200 (.ok sampleHealth))).2.filter Sample.isField).length
      = clusterHealthMetricsTable.length :=
  ⟨(collect_success_field_samples (NewClusterHealth sampleURL) sampleHealth
      rfl).1,
   (collect_success_field_samples (NewClusterHealth sampleURL) sampleHealth
      rfl).2.2⟩

/-- Claim C6: `Describe` emits the full description set — one per
field-mapping entry, one for the status metric, three for the
operational metrics — and its output is unchanged by any `Collect`
call, whatever the fetch outcome. -/
theorem describe_unconditional_full_set (u : GoURL) (c : ClusterHealth)
    (env : FetchOutcome) :
    Describe (NewClusterHealth u)
      = clusterHealthMetricsTable.map (fun metric => metric.descName) ++
        [clusterHealthStatusMetricDef.descName, upDescName,
         totalScrapesDescName, jsonParseFailuresDescName] ∧
    (Describe (NewClusterHealth u)).length
      = clusterHealthMetricsTable.length + 4 ∧
    Describe ((Collect c env).1) = Describe c := by
  refine ⟨rfl, ?_, ?_⟩
  · simp [Describe, NewClusterHealth]
  · rw [collect_state c env]
    rfl

/-- Claim C8: the static field-mapping table has exactly eleven
entries, and none of them reads `ActiveShardsPercentAsNumber`, so a
snapshot differing only in that decoded field yields the identical
`Collect` emission — the field is never emitted as a sample. -/
theorem percent_field_never_emitted (u : GoURL)
    (chr : clusterHealthResponse) (q : Rat) :
    clusterHealthMetricsTable.length = 11 ∧
    (NewClusterHealth u).metrics = clusterHealthMetricsTable ∧
    clusterHealthMetricsTable.map (fun metric =>
        metric.Value { chr with ActiveShardsPercentAsNumber := q })
      = clusterHealthMetricsTable.map (fun metric => metric.Value chr) ∧
    (Collect (NewClusterHealth u)
        (.response 200 (.ok { chr with ActiveShardsPercentAsNumber := q }))).2
      = (Collect (NewClusterHealth u) (.response 200 (.ok chr))).2 := by
  refine ⟨rfl, rfl, ?_, ?_⟩
  · simp [clusterHealthMetricsTable]
  · rw [collect_eq_of_ok, collect_eq_of_ok]
    simp [fieldSamples, statusSamples, NewClusterHealth,
      clusterHealthMetricsTable, clusterHealthStatusMetricDef]

/-- Claim C9: the status one-hot comparison is exact, case-sensitive
string equality: a status differing from a color in casing (or any
other way) scores 0 for that color, and a status matching no color
yields all-zero status samples. -/
theorem status_comparison_case_sensitive (c : ClusterHealth)
    (chr : clusterHealthResponse) (color : String)
    (hs : c.statusMetric = clusterHealthStatusMetricDef)
    (h : chr.Status ≠ color) :
    c.statusMetric.Value chr color = 0 ∧
    (chr.Status ∉ colors →
      ((Collect c (.response 200 (.ok chr))).2.filter Sample.isStatus).map
          Sample.value = [0, 0, 0]) := by
  constructor
  · rw [hs]
    simp [clusterHealthStatusMetricDef, h]
  · intro hmem
    rw [collect_status_filter_eq c chr hs]
    simp only [colors, List.mem_cons, List.not_mem_nil, or_false,
      not_or] at hmem
    obtain ⟨h1, h2, h3⟩ := hmem
    simp [colors, h1, h2, h3, Sample.value]

/-- Witness for C9 at the status string `Green`, which differs from
the color `green` only in case. -/
theorem status_comparison_case_sensitive_witness :
    (NewClusterHealth sampleURL).statusMetric.Value oddCaseHealth "green" = 0 ∧
    ((Collect (NewClusterHealth sampleURL)
        (.response 200 (.ok oddCaseHealth))).2.filter Sample.isStatus).map
        Sample.value = [0, 0, 0] := by
  have h := status_comparison_case_sensitive (NewClusterHealth sampleURL)
    oddCaseHealth "green" rfl (by decide)
  exact ⟨h.1, h.2 (by decide)⟩

end Pixiu
